import Mathlib

/-
Verification development for the Quantum Leap Academy application
(single-page React client, main component in src/unnamed/part_001).

The data model and the operations below are a shallow embedding of the
JavaScript source: statuses and phases are the literal strings the code
stores, scores are rationals standing for the exact values of the
arithmetic the code performs, fallible handlers return Except, and the
content-generation pipeline is modelled as a function from the service
environment (the outcome of each network step) to a trace of the requests
issued, the persistence writes issued, and the final local state.
-/

namespace QuantumLeap

/-- One entry of the generated resource list (a teacher pick):
an object with a required title and an optional url. -/
structure TeacherPick where
  title : String
  url : Option String
deriving Repr, DecidableEq, Inhabited

/-- A scenario object of the generated assignment: title and description. -/
structure Scenario where
  title : String
  description : String
deriving Repr, DecidableEq, Inhabited

/-- The task kind enum of the assignment schema. -/
inductive TaskKind where
  | text_input : TaskKind
  | code_input : TaskKind
deriving Repr, DecidableEq, Inhabited

/-- One task of an assignment section, per the assignment response schema. -/
structure AssignmentTask where
  task_id : String
  task_description : String
  marks : ℚ
  kind : TaskKind
  language : Option String
deriving Repr, DecidableEq, Inhabited

/-- One section of the generated assignment, per the assignment response schema. -/
structure AssignmentSection where
  section_id : String
  section_title : String
  marks : ℚ
  sub_scenario : Scenario
  tasks : List AssignmentTask
deriving Repr, DecidableEq, Inhabited

/-- One resource entry of the generated assignment. -/
structure AssignmentResource where
  title : String
  url : String
  kind : String
  category : String
deriving Repr, DecidableEq, Inhabited

/-- The structured assignment object produced by the content generator. -/
structure AssignmentContent where
  title : String
  total_marks : ℚ
  scenario : Scenario
  sections : List AssignmentSection
  resources : List AssignmentResource
deriving Repr, DecidableEq, Inhabited

/-- The assignments field of a module. In the source it starts as the empty
object; completing the assignment sets completed, and submitting also stores
the responses (a map section_id to task_id to text). -/
structure Assignments where
  completed : Bool
  responses : Option (List (String × List (String × String)))
deriving Repr, DecidableEq, Inhabited

/-- The empty assignments object a fresh or reset module carries. -/
def Assignments.empty : Assignments := ⟨false, none⟩

/-- One recorded quiz attempt: score and date. -/
structure QuizRecord where
  score : ℚ
  date : String
deriving Repr, DecidableEq, Inhabited

/-- A module document, per the fields written by createNewModule. -/
structure Module where
  id : String
  name : String
  status : String
  resources : List String
  teacherPicks : List TeacherPick
  assignmentContent : Option AssignmentContent
  assignments : Assignments
  quizzes : List QuizRecord
  finalTestScore : ℚ
  certificateIssued : Bool
  createdAt : String
  lastUpdated : String
deriving Repr, DecidableEq, Inhabited

/-- The fresh module document createNewModule writes: id is the module-
prefixed creation timestamp, status is started, all content empty, no
certificate. The timestamp is passed in as a string. -/
def newModuleData (topic : String) (now : String) : Module :=
  { id := "module-" ++ now
  , name := topic
  , status := "started"
  , resources := []
  , teacherPicks := []
  , assignmentContent := none
  , assignments := Assignments.empty
  , quizzes := []
  , finalTestScore := 0
  , certificateIssued := false
  , createdAt := now
  , lastUpdated := now }

/-- The four answer options of a generated question. -/
structure QOptions where
  A : String
  B : String
  C : String
  D : String
deriving Repr, DecidableEq, Inhabited

/-- A generated multiple-choice question (ephemeral, not persisted). -/
structure Question where
  question : String
  options : QOptions
  correctAnswer : String
deriving Repr, DecidableEq, Inhabited

/-- Recording an answer: handleAnswerChange stores the selected option key
under the question index. Answers absent from the map are none. -/
def handleAnswerChange (answers : Nat → Option String) (questionIndex : Nat)
    (selectedOption : String) : Nat → Option String :=
  fun j => if j = questionIndex then some selectedOption else answers j

/-- The counting loop of submitTest: iterate over the questions with their
index and count those whose recorded answer is exactly the correct answer
(an absent answer compares unequal to every string). -/
def countCorrectAux (answers : Nat → Option String) : Nat → List Question → Nat
  | _, [] => 0
  | i, q :: qs =>
      (if answers i == some q.correctAnswer then 1 else 0) + countCorrectAux answers (i + 1) qs

/-- The correct-answer count of submitTest, starting the index at 0. -/
def countCorrect (questions : List Question) (answers : Nat → Option String) : Nat :=
  countCorrectAux answers 0 questions

/-- The score submitTest computes: correct count over total, times 100. -/
def computeScore (questions : List Question) (answers : Nat → Option String) : ℚ :=
  (countCorrect questions answers : ℚ) / (questions.length : ℚ) * 100

/-- The quiz branch of submitTest: append one score-and-date record to the
quizzes list; every other module field is untouched. -/
def submitQuizUpdate (m : Module) (score : ℚ) (now : String) : Module :=
  { m with quizzes := m.quizzes ++ [⟨score, now⟩], lastUpdated := now }

/-- The final-test branch of submitTest: overwrite finalTestScore, set
certificateIssued exactly when the score reaches 80, and set status to
completed or needs_revisit accordingly. -/
def submitFinalUpdate (m : Module) (score : ℚ) (now : String) : Module :=
  { m with finalTestScore := score
         , certificateIssued := decide (score ≥ 80)
         , status := if score ≥ 80 then "completed" else "needs_revisit"
         , lastUpdated := now }

/-- The kind of test being submitted or generated. -/
inductive TestKind where
  | quiz : TestKind
  | finalTest : TestKind
deriving Repr, DecidableEq

/-- The outcome of a test submission: the computed score, the resulting
current module (unchanged when none was selected), and the app phase after
the submission. -/
structure SubmitResult where
  score : ℚ
  currentModule : Option Module
  appPhase : String
deriving Repr, DecidableEq

/-- submitTest, from the source: abort when no questions were generated;
otherwise compute the score, and if a module is selected record the attempt
(quiz: append the record, advance to finalTest only on a score of at least
80; final test: overwrite score, certificate and status, go to results). -/
def submitTest (kind : TestKind) (questions : List Question)
    (answers : Nat → Option String) (currentModule : Option Module)
    (now : String) (phase : String) : Except String SubmitResult :=
  if questions.isEmpty then
    .error "Please generate a test first."
  else
    match currentModule with
    | none => .ok ⟨computeScore questions answers, none, phase⟩
    | some m =>
      match kind with
      | .quiz =>
          .ok ⟨computeScore questions answers
              , some (submitQuizUpdate m (computeScore questions answers) now)
              , if computeScore questions answers ≥ 80 then "finalTest" else phase⟩
      | .finalTest =>
          .ok ⟨computeScore questions answers
              , some (submitFinalUpdate m (computeScore questions answers) now)
              , "results"⟩

/-- resetModuleForRetry, from the source: status back to started, assignments
and quizzes cleared, score and certificate zeroed; every other field (in
particular resources, teacherPicks and assignmentContent) keeps its value. -/
def resetModuleForRetry (m : Module) (now : String) : Module :=
  { m with status := "started"
         , assignments := Assignments.empty
         , quizzes := []
         , finalTestScore := 0
         , certificateIssued := false
         , lastUpdated := now }

/-- The module update performed when the assignment is completed (the final
branch of goToNextAssignmentSection, and submitAssignment): mark the
assignments object completed and set status to assignment_done. The write is
unconditional in the prior status. -/
def completeAssignmentUpdate (m : Module) (now : String) : Module :=
  { m with assignments := { m.assignments with completed := true }
         , status := "assignment_done"
         , lastUpdated := now }

/-- The in-memory state the assignment navigation handlers act on: the
selected module, the local assignment content, the current section index and
the app phase. -/
structure AssignState where
  currentModule : Option Module
  assignmentContent : Option AssignmentContent
  currentAssignmentSectionIndex : Nat
  appPhase : String
deriving Repr, DecidableEq

/-- The shared tail of goToNextAssignmentSection: when a module is selected,
apply the completion update and move the phase to quiz; otherwise nothing
happens. -/
def finishAssignment (now : String) (s : AssignState) : AssignState :=
  match s.currentModule with
  | some m => { s with currentModule := some (completeAssignmentUpdate m now)
                     , appPhase := "quiz" }
  | none => s

/-- goToNextAssignmentSection, from the source: while the index is below the
last section, increment it; on the last section (or when no content is
loaded, since the guard also fails then) treat the invocation as completing
the assignment. The JavaScript comparison index less than length minus one
agrees with the truncated Nat subtraction used here, an empty section list
making both guards false. -/
def goToNextAssignmentSection (now : String) (s : AssignState) : AssignState :=
  match s.assignmentContent with
  | some ac =>
      if s.currentAssignmentSectionIndex < ac.sections.length - 1 then
        { s with currentAssignmentSectionIndex := s.currentAssignmentSectionIndex + 1 }
      else
        finishAssignment now s
  | none => finishAssignment now s

/-- goToPreviousAssignmentSection, from the source: decrement the section
index when it is positive, otherwise change nothing. -/
def goToPreviousAssignmentSection (s : AssignState) : AssignState :=
  if 0 < s.currentAssignmentSectionIndex then
    { s with currentAssignmentSectionIndex := s.currentAssignmentSectionIndex - 1 }
  else
    s

/-- addResource, from the source. The component declares the resource input
by destructuring the empty string literal instead of a state hook, so both
resourceInput and its setter are undefined; the first statement of
addResource calls trim on that undefined value and the handler therefore
always throws before reading or writing any module state. -/
def addResource (_m : Module) : Except String Module :=
  .error "TypeError: resourceInput is undefined"

/-- The three request shapes the application sends to the generation
service. -/
inductive ServiceRequest where
  | resourceList : ServiceRequest
  | assignment : ServiceRequest
  | questionSet : ServiceRequest
deriving Repr, DecidableEq

/-- The disambiguated body of a service response, as the parsing code
distinguishes it: no first candidate with content parts, a textual payload
that fails strict JSON parsing, or a successfully parsed value. -/
inductive RespBody (α : Type) where
  | missing : RespBody α
  | unparsable : RespBody α
  | parsed : α → RespBody α
deriving Repr, DecidableEq

/-- A persistence write issued through the store helpers: either the
field-level merge writes of the generation pipeline, or a merge of a whole
module document. -/
inductive StoreWrite where
  | mergeTeacherPicks : String → List TeacherPick → StoreWrite
  | mergeAssignmentContent : String → AssignmentContent → StoreWrite
  | mergeModule : String → Module → StoreWrite
deriving Repr, DecidableEq

/-- The observable outcome of one generateModuleContent invocation: the
service requests actually issued, the persistence writes actually issued (in
order), the final error message, and the final local teacher picks and
assignment content. -/
structure GenTrace where
  requests : List ServiceRequest
  writes : List StoreWrite
  errorMessage : String
  teacherPicks : List TeacherPick
  assignmentContent : Option AssignmentContent
deriving Repr, DecidableEq

/-- The configuration-error message both generation entry points show when
the service credential is absent. -/
def geminiKeyMissingMsg : String :=
  "Gemini API Key is not set. Please set REACT_APP_GEMINI_API_KEY in your .env file."

/-- The message of the ReferenceError raised when the assignment fetch
evaluates the undefined identifier payload. -/
def payloadRefErrorMsg : String := "payload is not defined"

/-- The message generateModuleContent shows when its try block throws. -/
def genContentFailMsg (e : String) : String :=
  "Failed to generate module content: " ++ e ++ ". Ensure your API key is valid."

/-- The fallback teacher pick substituted when the resource payload fails to
parse. -/
def resourceParseFallback : List TeacherPick :=
  [⟨"Could not generate specific picks. Please try again or add manually.", some "#"⟩]

/-- The fallback teacher pick substituted when the resource response has no
candidate content. -/
def resourceMissingFallback : List TeacherPick :=
  [⟨"No specific picks generated. Please add your own resources.", some "#"⟩]

/-- The handling of the resource-list response body in generateModuleContent:
a parsed value is used as is, and each failure mode substitutes its
deterministic fallback pick. -/
def parseResourcesStep (body : RespBody (List TeacherPick)) : List TeacherPick :=
  match body with
  | .parsed v => v
  | .unparsable => resourceParseFallback
  | .missing => resourceMissingFallback

/-- The minimal fallback assignment built inline in generateModuleContent for
a malformed or empty assignment response. It is unreachable in the shipped
code because the assignment fetch throws before any response is read. -/
def assignmentFallback (moduleName : String) : AssignmentContent :=
  { title := "Generic Assignment for " ++ moduleName
  , total_marks := 100
  , scenario := ⟨"Generic Scenario", "This is a fallback assignment."⟩
  , sections := [
      { section_id := "fallback1"
      , section_title := "Part 1: Fallback Tasks"
      , marks := 50
      , sub_scenario := ⟨"Fallback Sub-scenario", "Review basic concepts."⟩
      , tasks := [⟨"F1.1", "Complete task A.", 25, .text_input, none⟩] }]
  , resources := [] }

/-- generateModuleContent, from the source, as a function from the service
environment to an execution trace. With no credential it aborts with the
configuration message before any request or write. Otherwise the resource
request is issued; a thrown transport failure reaches the outer catch, while
any received response is turned into teacher picks (parsed or fallback),
stored locally and immediately persisted by a field-level merge write. The
assignment step then builds assignmentPayload but passes the undefined
identifier payload to the fetch call, so a ReferenceError is raised before
the assignment request is issued: the outer catch records the failure
message and resets the local teacher picks and assignment content, and the
assignment-side service environment is never consulted. -/
def generateModuleContent (apiKey : Option String) (moduleId : String)
    (_moduleName : String)
    (resourceStep : Except String (RespBody (List TeacherPick)))
    (_assignmentStep : Except String (RespBody AssignmentContent))
    (teacherPicks0 : List TeacherPick) (assignmentContent0 : Option AssignmentContent) :
    GenTrace :=
  match apiKey with
  | none => ⟨[], [], geminiKeyMissingMsg, teacherPicks0, assignmentContent0⟩
  | some _ =>
    match resourceStep with
    | .error e => ⟨[.resourceList], [], genContentFailMsg e, [], none⟩
    | .ok body =>
      let parsedResources := parseResourcesStep body
      ⟨[.resourceList]
      , [.mergeTeacherPicks moduleId parsedResources]
      , genContentFailMsg payloadRefErrorMsg
      , []
      , none⟩

/-- The observable outcome of one generateTest invocation: requests issued,
persistence writes issued (generateTest performs none), the final error
message and the resulting question list. -/
structure TestGenTrace where
  requests : List ServiceRequest
  writes : List StoreWrite
  errorMessage : String
  questions : List Question
deriving Repr, DecidableEq

/-- generateTest, from the source, as a function from the service
environment to an execution trace. It aborts before any request when no
module is selected or when the credential is absent; otherwise it issues the
question-set request and either installs the parsed questions, or reports
the failure and leaves the question list empty. It never writes to the
store. -/
def generateTest (apiKey : Option String) (currentModule : Option Module)
    (_kind : TestKind) (step : Except String (RespBody (List Question)))
    (questions0 : List Question) : TestGenTrace :=
  match currentModule with
  | none => ⟨[], [], "Please select or create a module first.", questions0⟩
  | some _ =>
    match apiKey with
    | none => ⟨[], [], geminiKeyMissingMsg, questions0⟩
    | some _ =>
      match step with
      | .error e =>
          ⟨[.questionSet], []
          , "Error generating test: " ++ e ++
              ". Ensure your API key is valid and enabled for Gemini."
          , []⟩
      | .ok .missing =>
          ⟨[.questionSet], [], "Failed to generate questions. Please try again.", []⟩
      | .ok .unparsable =>
          ⟨[.questionSet], []
          , "Error generating test: JSON parse failure. Ensure your API key is valid and enabled for Gemini."
          , []⟩
      | .ok (.parsed qs) => ⟨[.questionSet], [], "", qs⟩

/-- The module invariant of the specification: a certificate is issued
exactly on the completed status. -/
def certStatusInv (m : Module) : Prop :=
  m.certificateIssued = true ↔ m.status = "completed"

instance (m : Module) : Decidable (certStatusInv m) := by
  unfold certStatusInv; infer_instance

/-- Modelled from the spec (section 4.1): the status transitions the claims
allow. This definition follows the wording of the claim, to be compared with
what the operations embedded from the source actually do. -/
def allowedStatusTransition (s t : String) : Prop :=
  ((s = "started" ∨ s = "resources_added") ∧ t = "assignment_done")
  ∨ (s = "assignment_done" ∧ (t = "completed" ∨ t = "needs_revisit"))
  ∨ (s = "needs_revisit" ∧ t = "started")

instance (s t : String) : Decidable (allowedStatusTransition s t) := by
  unfold allowedStatusTransition; infer_instance

/-- The specification-side count of correct answers: the number of question
indices whose recorded answer equals that question's correct answer. -/
def specCorrectCount (questions : List Question) (answers : Nat → Option String) : Nat :=
  ((Finset.range questions.length).filter
    (fun i => answers i = some ((questions.getD i default).correctAnswer))).card

/-- A concrete teacher pick used as parsed service output in the witnesses. -/
def samplePick : TeacherPick := ⟨"Intro to Graph Theory", some "https://example.com/graphs"⟩

/-- A concrete two-section assignment used in the witnesses. -/
def sampleAssignmentContent : AssignmentContent :=
  { title := "Graph Theory Assignment"
  , total_marks := 100
  , scenario := ⟨"Networks", "Model a small transport network."⟩
  , sections :=
      [ { section_id := "s1", section_title := "Part 1", marks := 40
        , sub_scenario := ⟨"Basics", "Definitions and examples."⟩
        , tasks := [⟨"T1.1", "Define a graph.", 40, .text_input, none⟩] }
      , { section_id := "s2", section_title := "Part 2", marks := 60
        , sub_scenario := ⟨"Paths", "Shortest paths."⟩
        , tasks := [⟨"T2.1", "Implement breadth-first search.", 60, .code_input, some "Python"⟩] } ]
  , resources := [] }

/-- A concrete five-question test used in the witnesses. -/
def sampleQuestions : List Question :=
  [ ⟨"Q1", ⟨"a1", "b1", "c1", "d1"⟩, "A"⟩
  , ⟨"Q2", ⟨"a2", "b2", "c2", "d2"⟩, "B"⟩
  , ⟨"Q3", ⟨"a3", "b3", "c3", "d3"⟩, "C"⟩
  , ⟨"Q4", ⟨"a4", "b4", "c4", "d4"⟩, "D"⟩
  , ⟨"Q5", ⟨"a5", "b5", "c5", "d5"⟩, "A"⟩ ]

/-- An answer assignment for the sample test: two correct answers, one wrong
answer, two questions left unanswered. -/
def sampleAnswers : Nat → Option String :=
  fun i => if i = 0 then some "A" else if i = 1 then some "B"
           else if i = 2 then some "A" else none

/-- The all-correct answer assignment for the sample test. -/
def sampleAllCorrect : Nat → Option String :=
  fun i => if i = 0 then some "A" else if i = 1 then some "B"
           else if i = 2 then some "C" else if i = 3 then some "D" else some "A"

/-- A freshly created module used in the witnesses. -/
def sampleModule : Module := newModuleData "Graph Theory Basics" "1700000000000"

/-- The trace of a generateModuleContent run with the credential present, a
well-formed resource response and a malformed assignment response. -/
def c2Trace : GenTrace :=
  generateModuleContent (some "test-key") "module-1" "Graph Theory Basics"
    (.ok (.parsed [samplePick])) (.ok .unparsable) [] none

/-- The trace of a generateModuleContent run in which both service responses
are available and well formed. -/
def c3Trace : GenTrace :=
  generateModuleContent (some "test-key") "module-3" "Linear Algebra"
    (.ok (.parsed [samplePick])) (.ok (.parsed sampleAssignmentContent)) [] none

/-- Step 0 of the status-machine counterexample: a fresh module. -/
def c4m0 : Module := newModuleData "Graph Theory Basics" "1700000000000"

/-- The navigation state of the fresh module, sitting on the last assignment
section. -/
def c4s0 : AssignState :=
  ⟨some c4m0, some sampleAssignmentContent,
    sampleAssignmentContent.sections.length - 1, "assignment"⟩

/-- Step 1: the next-section handler on the last section completes the
assignment. -/
def c4m1 : Module :=
  ((goToNextAssignmentSection "t1" c4s0).currentModule).getD default

/-- Step 2: a perfect final-test submission on that module. -/
def c4m2 : Module :=
  match submitTest .finalTest sampleQuestions sampleAllCorrect (some c4m1) "t2" "finalTest" with
  | .ok r => r.currentModule.getD default
  | .error _ => default

/-- Step 3: the next-section handler invoked once more, on the completed
module, again on the last section. -/
def c4m3 : Module :=
  ((goToNextAssignmentSection "t3"
      ⟨some c4m2, some sampleAssignmentContent,
        sampleAssignmentContent.sections.length - 1, "results"⟩).currentModule).getD default

/-- The per-operation status effects that actually hold in the source, with
the state-machine conformance restricted to the statuses from which the
specification intends each operation to be invoked: addResource never writes
(it throws on entry), assignment completion writes assignment_done
unconditionally, the final test writes completed or needs_revisit by the 80
threshold, quiz submission never changes status, and reset writes started
unconditionally. -/
def StatusEffects : Prop :=
  (∀ m, addResource m = .error "TypeError: resourceInput is undefined")
  ∧ (∀ now s, (goToNextAssignmentSection now s).currentModule = s.currentModule
      ∨ ∃ m, s.currentModule = some m ∧
          (goToNextAssignmentSection now s).currentModule = some (completeAssignmentUpdate m now))
  ∧ (∀ m now, (completeAssignmentUpdate m now).status = "assignment_done")
  ∧ (∀ m score now, (submitQuizUpdate m score now).status = m.status)
  ∧ (∀ m score now, (submitFinalUpdate m score now).status =
      if score ≥ 80 then "completed" else "needs_revisit")
  ∧ (∀ m now, (resetModuleForRetry m now).status = "started")
  ∧ (∀ topic now, (newModuleData topic now).status = "started")
  ∧ (∀ m now, (m.status = "started" ∨ m.status = "resources_added") →
      allowedStatusTransition m.status (completeAssignmentUpdate m now).status)
  ∧ (∀ m score now, m.status = "assignment_done" →
      allowedStatusTransition m.status (submitFinalUpdate m score now).status)
  ∧ (∀ m now, m.status = "needs_revisit" →
      allowedStatusTransition m.status (resetModuleForRetry m now).status)

/-- The navigation properties of the assignment phase for a given content,
module, phase and timestamp: the section index stays within bounds, the
previous handler is the identity on section 0, iterating the next handler
one less time than the section count walks from section 0 to the last
section without touching the module or phase, and one further invocation
completes the assignment, sets status assignment_done and moves the phase to
quiz. -/
def NavSpec (ac : AssignmentContent) (m : Module) (phase now : String) : Prop :=
  (∀ s : AssignState, s.assignmentContent = some ac →
      s.currentAssignmentSectionIndex ≤ ac.sections.length - 1 →
      (goToNextAssignmentSection now s).currentAssignmentSectionIndex
          ≤ ac.sections.length - 1
        ∧ (goToPreviousAssignmentSection s).currentAssignmentSectionIndex
          ≤ ac.sections.length - 1)
  ∧ (∀ s : AssignState, s.currentAssignmentSectionIndex = 0 →
      goToPreviousAssignmentSection s = s)
  ∧ ((goToNextAssignmentSection now)^[ac.sections.length - 1]
        ⟨some m, some ac, 0, phase⟩
      = ⟨some m, some ac, ac.sections.length - 1, phase⟩)
  ∧ (goToNextAssignmentSection now
        ⟨some m, some ac, ac.sections.length - 1, phase⟩
      = ⟨some (completeAssignmentUpdate m now), some ac,
          ac.sections.length - 1, "quiz"⟩)
  ∧ (completeAssignmentUpdate m now).assignments.completed = true
  ∧ (completeAssignmentUpdate m now).status = "assignment_done"

/-- The submitTest outcome claimed by the scoring specification: the call
succeeds, its score is the exact-match count over the total times 100, and a
five-question test only ever produces one of the six multiples of 20. -/
def ScoreFormulaSpec (kind : TestKind) (qs : List Question)
    (answers : Nat → Option String) (m? : Option Module) (now phase : String) : Prop :=
  ∃ r, submitTest kind qs answers m? now phase = .ok r
    ∧ r.score = (specCorrectCount qs answers : ℚ) / (qs.length : ℚ) * 100
    ∧ (qs.length = 5 →
        (r.score = 0 ∨ r.score = 20 ∨ r.score = 40 ∨ r.score = 60 ∨
         r.score = 80 ∨ r.score = 100))

/-- The frame effects of the two submission branches: a quiz submission
appends exactly one score-and-date record and leaves status, final score and
certificate untouched; a final-test submission overwrites the final score
and leaves the quizzes list untouched. -/
def QuizFinalFrameSpec (qs : List Question) (answers : Nat → Option String)
    (m : Module) (now phase : String) : Prop :=
  (∃ r m', submitTest .quiz qs answers (some m) now phase = .ok r
      ∧ r.currentModule = some m'
      ∧ m'.quizzes = m.quizzes ++ [⟨computeScore qs answers, now⟩]
      ∧ m'.status = m.status
      ∧ m'.finalTestScore = m.finalTestScore
      ∧ m'.certificateIssued = m.certificateIssued)
  ∧ (∃ r m', submitTest .finalTest qs answers (some m) now phase = .ok r
      ∧ r.currentModule = some m'
      ∧ m'.finalTestScore = computeScore qs answers
      ∧ m'.quizzes = m.quizzes)

/-- The behaviour of submissions with no recorded answers: the answered
count bounds the correct count, and submitting with every answer absent
scores exactly 0 while the quiz record and the final-test overwrite are
still applied (the certificate denied, the status set to needs_revisit). -/
def UnansweredSpec (qs : List Question) (answers : Nat → Option String)
    (m : Module) (now phase : String) : Prop :=
  (countCorrect qs answers
      ≤ ((Finset.range qs.length).filter (fun i => (answers i).isSome)).card)
  ∧ (∃ r m', submitTest .quiz qs (fun _ => none) (some m) now phase = .ok r
      ∧ r.score = 0
      ∧ r.currentModule = some m'
      ∧ m'.quizzes = m.quizzes ++ [⟨0, now⟩])
  ∧ (∃ r m', submitTest .finalTest qs (fun _ => none) (some m) now phase = .ok r
      ∧ r.score = 0
      ∧ r.currentModule = some m'
      ∧ m'.finalTestScore = 0
      ∧ m'.certificateIssued = false
      ∧ m'.status = "needs_revisit")

lemma countCorrectAux_eq_sum (answers : Nat → Option String) (qs : List Question) :
    ∀ i, countCorrectAux answers i qs =
      ∑ k in Finset.range qs.length,
        (if answers (i + k) = some ((qs.getD k default).correctAnswer) then 1 else 0) := by
  induction qs with
  | nil => intro i; simp [countCorrectAux]
  | cons q qs ih =>
    intro i
    rw [countCorrectAux, ih (i + 1), List.length_cons, Finset.sum_range_succ']
    simp only [List.getD_cons_succ, List.getD_cons_zero, Nat.add_zero]
    rw [Nat.add_comm]
    congr 1
    apply Finset.sum_congr rfl
    intro k _
    have h : i + (k + 1) = i + 1 + k := by omega
    rw [h]
    have hbeq : (answers i == some q.correctAnswer)
        = decide (answers i = some q.correctAnswer) := by
      cases h' : decide (answers i = some q.correctAnswer) <;>
        simp_all [beq_iff_eq]
    simp [hbeq]

lemma countCorrect_eq_specCorrectCount (qs : List Question) (answers : Nat → Option String) :
    countCorrect qs answers = specCorrectCount qs answers := by
  rw [countCorrect, countCorrectAux_eq_sum, specCorrectCount, Finset.card_filter]
  simp

lemma countCorrect_le_length (qs : List Question) (answers : Nat → Option String) :
    countCorrect qs answers ≤ qs.length := by
  rw [countCorrect_eq_specCorrectCount, specCorrectCount]
  calc ((Finset.range qs.length).filter _).card
      ≤ (Finset.range qs.length).card := Finset.card_filter_le _ _
    _ = qs.length := Finset.card_range _

lemma isEmpty_false_of_ne_nil {qs : List Question} (h : qs ≠ []) :
    qs.isEmpty = false := by
  cases qs with
  | nil => exact absurd rfl h
  | cons q t => rfl

lemma countCorrectAux_none (qs : List Question) :
    ∀ i, countCorrectAux (fun _ => none) i qs = 0 := by
  induction qs with
  | nil => intro i; rfl
  | cons q qs ih => intro i; simp [countCorrectAux, ih]

lemma computeScore_noAnswers (qs : List Question) :
    computeScore qs (fun _ => none) = 0 := by
  unfold computeScore countCorrect
  rw [countCorrectAux_none]
  norm_num

lemma score_mem_of_length_five (qs : List Question) (answers : Nat → Option String)
    (h5 : qs.length = 5) :
    computeScore qs answers = 0 ∨ computeScore qs answers = 20 ∨
    computeScore qs answers = 40 ∨ computeScore qs answers = 60 ∨
    computeScore qs answers = 80 ∨ computeScore qs answers = 100 := by
  have hc : countCorrect qs answers ≤ 5 := h5 ▸ countCorrect_le_length qs answers
  unfold computeScore
  rw [h5]
  set c := countCorrect qs answers with hc'
  interval_cases c <;> norm_num

lemma finishAssignment_index (now : String) (s : AssignState) :
    (finishAssignment now s).currentAssignmentSectionIndex
      = s.currentAssignmentSectionIndex := by
  cases hm : s.currentModule <;> simp [finishAssignment, hm]

lemma goToNext_before_last (now : String) (ac : AssignmentContent)
    (m? : Option Module) (phase : String) (k : Nat)
    (hk : k < ac.sections.length - 1) :
    goToNextAssignmentSection now ⟨m?, some ac, k, phase⟩
      = ⟨m?, some ac, k + 1, phase⟩ := by
  simp [goToNextAssignmentSection, hk]

lemma iterate_goToNext (now : String) (ac : AssignmentContent)
    (m? : Option Module) (phase : String) :
    ∀ k, k ≤ ac.sections.length - 1 →
      (goToNextAssignmentSection now)^[k] ⟨m?, some ac, 0, phase⟩
        = ⟨m?, some ac, k, phase⟩ := by
  intro k
  induction k with
  | zero => intro _; rfl
  | succ k ih =>
    intro h
    rw [Function.iterate_succ_apply', ih (by omega)]
    exact goToNext_before_last now ac m? phase k (by omega)

/-- Claim C1: after module creation, quiz submission, final-test submission
and reset, a certificate is issued exactly when the status is completed; and
a final-test submission issues the certificate exactly when its score is at
least 80. -/
theorem claim_C1_certificate_iff_completed :
    (∀ topic now, certStatusInv (newModuleData topic now))
    ∧ (∀ m score now, certStatusInv m → certStatusInv (submitQuizUpdate m score now))
    ∧ (∀ m (score : ℚ) now, certStatusInv (submitFinalUpdate m score now)
        ∧ ((submitFinalUpdate m score now).certificateIssued = true ↔ score ≥ 80))
    ∧ (∀ m now, certStatusInv (resetModuleForRetry m now)) := by
  refine ⟨?_, ?_, ?_, ?_⟩
  · intro topic now; simp [certStatusInv, newModuleData]
  · intro m score now h; simpa [certStatusInv, submitQuizUpdate] using h
  · intro m score now
    by_cases h : score ≥ 80 <;> simp [certStatusInv, submitFinalUpdate, h]
  · intro m now; simp [certStatusInv, resetModuleForRetry]

/-- Witness for C1 at a concrete module and quiz score. -/
theorem claim_C1_certificate_iff_completed_witness :
    certStatusInv sampleModule
    ∧ certStatusInv (submitQuizUpdate sampleModule 50 "t1") :=
  ⟨by decide, claim_C1_certificate_iff_completed.2.1 sampleModule 50 "t1" (by decide)⟩

/-- Claim C6: reset restores status started, empty assignments, no quizzes,
zero final score and no certificate, while resources, teacher picks and
assignment content keep their prior values. -/
theorem claim_C6_reset_frame (m : Module) (now : String) :
    (resetModuleForRetry m now).status = "started"
    ∧ (resetModuleForRetry m now).assignments = Assignments.empty
    ∧ (resetModuleForRetry m now).quizzes = []
    ∧ (resetModuleForRetry m now).finalTestScore = 0
    ∧ (resetModuleForRetry m now).certificateIssued = false
    ∧ (resetModuleForRetry m now).resources = m.resources
    ∧ (resetModuleForRetry m now).teacherPicks = m.teacherPicks
    ∧ (resetModuleForRetry m now).assignmentContent = m.assignmentContent :=
  ⟨rfl, rfl, rfl, rfl, rfl, rfl, rfl, rfl⟩

/-- Claim C5: for a non-empty question list, submitTest succeeds and its
score is the exact-match count over the total times 100; with five questions
the score is one of the six multiples of 20. -/
theorem claim_C5_score_formula (kind : TestKind) (qs : List Question)
    (answers : Nat → Option String) (m? : Option Module) (now phase : String)
    (h : qs ≠ []) : ScoreFormulaSpec kind qs answers m? now phase := by
  have hne : qs.isEmpty = false := isEmpty_false_of_ne_nil h
  have hkey : computeScore qs answers
      = (specCorrectCount qs answers : ℚ) / (qs.length : ℚ) * 100 := by
    rw [computeScore, countCorrect_eq_specCorrectCount]
  have hmem := score_mem_of_length_five qs answers
  rcases m? with _ | m
  · exact ⟨⟨computeScore qs answers, none, phase⟩,
      by simp [submitTest, hne], hkey, fun h5 => hmem h5⟩
  · rcases kind with _ | _
    · exact ⟨⟨computeScore qs answers,
        some (submitQuizUpdate m (computeScore qs answers) now),
        if computeScore qs answers ≥ 80 then "finalTest" else phase⟩,
        by simp [submitTest, hne], hkey, fun h5 => hmem h5⟩
    · exact ⟨⟨computeScore qs answers,
        some (submitFinalUpdate m (computeScore qs answers) now), "results"⟩,
        by simp [submitTest, hne], hkey, fun h5 => hmem h5⟩

/-- Witness for C5 at the concrete five-question test. -/
theorem claim_C5_score_formula_witness :
    sampleQuestions ≠ []
    ∧ ScoreFormulaSpec .quiz sampleQuestions sampleAnswers (some sampleModule) "t1" "quiz" :=
  ⟨by decide,
   claim_C5_score_formula .quiz sampleQuestions sampleAnswers (some sampleModule)
     "t1" "quiz" (by decide)⟩

/-- Claim C7: a quiz submission appends exactly one record and leaves
status, final score and certificate unchanged; a final-test submission
overwrites the final score and appends nothing to the quizzes. -/
theorem claim_C7_quiz_append_final_overwrite (qs : List Question)
    (answers : Nat → Option String) (m : Module) (now phase : String)
    (h : qs ≠ []) : QuizFinalFrameSpec qs answers m now phase := by
  have hne : qs.isEmpty = false := isEmpty_false_of_ne_nil h
  constructor
  · exact ⟨⟨computeScore qs answers,
      some (submitQuizUpdate m (computeScore qs answers) now),
      if computeScore qs answers ≥ 80 then "finalTest" else phase⟩,
      submitQuizUpdate m (computeScore qs answers) now,
      by simp [submitTest, hne], rfl, rfl, rfl, rfl, rfl⟩
  · exact ⟨⟨computeScore qs answers,
      some (submitFinalUpdate m (computeScore qs answers) now), "results"⟩,
      submitFinalUpdate m (computeScore qs answers) now,
      by simp [submitTest, hne], rfl, rfl, rfl⟩

/-- Witness for C7 at the concrete five-question test. -/
theorem claim_C7_quiz_append_final_overwrite_witness :
    sampleQuestions ≠ []
    ∧ QuizFinalFrameSpec sampleQuestions sampleAnswers sampleModule "t1" "quiz" :=
  ⟨by decide,
   claim_C7_quiz_append_final_overwrite sampleQuestions sampleAnswers sampleModule
     "t1" "quiz" (by decide)⟩

/-- Claim C10: an absent answer never counts as correct, and submitting a
non-empty test with no answers scores exactly 0, still appending the quiz
record, and still overwriting the final score with 0, denying the
certificate and setting needs_revisit. -/
theorem claim_C10_unanswered_counts_incorrect (qs : List Question)
    (answers : Nat → Option String) (m : Module) (now phase : String)
    (h : qs ≠ []) : UnansweredSpec qs answers m now phase := by
  have hne : qs.isEmpty = false := isEmpty_false_of_ne_nil h
  have h0 : computeScore qs (fun _ => none) = 0 := computeScore_noAnswers qs
  refine ⟨?_, ?_, ?_⟩
  · rw [countCorrect_eq_specCorrectCount, specCorrectCount]
    apply Finset.card_le_card
    intro x hx
    simp only [Finset.mem_filter] at hx ⊢
    exact ⟨hx.1, by rw [hx.2]; rfl⟩
  · refine ⟨⟨computeScore qs (fun _ => none),
      some (submitQuizUpdate m (computeScore qs (fun _ => none)) now),
      if computeScore qs (fun _ => none) ≥ 80 then "finalTest" else phase⟩,
      submitQuizUpdate m (computeScore qs (fun _ => none)) now,
      by simp [submitTest, hne], h0, rfl, ?_⟩
    simp [submitQuizUpdate, h0]
  · refine ⟨⟨computeScore qs (fun _ => none),
      some (submitFinalUpdate m (computeScore qs (fun _ => none)) now), "results"⟩,
      submitFinalUpdate m (computeScore qs (fun _ => none)) now,
      by simp [submitTest, hne], h0, rfl, ?_, ?_, ?_⟩
    · simp [submitFinalUpdate, h0]
    · simp [submitFinalUpdate, h0]
    · simp [submitFinalUpdate, h0]

/-- Witness for C10 at the concrete five-question test. -/
theorem claim_C10_unanswered_counts_incorrect_witness :
    sampleQuestions ≠ []
    ∧ UnansweredSpec sampleQuestions sampleAnswers sampleModule "t1" "quiz" :=
  ⟨by decide,
   claim_C10_unanswered_counts_incorrect sampleQuestions sampleAnswers sampleModule
     "t1" "quiz" (by decide)⟩

/-- Claim C8: within the assignment phase the section index stays in range,
previous floors at 0, next walks to the last section without completing, and
the invocation after the last section completes the assignment, sets status
assignment_done and moves the phase to quiz. -/
theorem claim_C8_section_navigation (ac : AssignmentContent) (m : Module)
    (phase now : String) (hne : ac.sections ≠ []) : NavSpec ac m phase now := by
  have hlen : 0 < ac.sections.length := List.length_pos.mpr hne
  refine ⟨?_, ?_, ?_, ?_, rfl, rfl⟩
  · intro s h1 h2
    constructor
    · by_cases hc : s.currentAssignmentSectionIndex < ac.sections.length - 1
      · simp [goToNextAssignmentSection, h1, hc]
        omega
      · simp [goToNextAssignmentSection, h1, hc, finishAssignment_index]
        exact h2
    · unfold goToPreviousAssignmentSection
      split
      · simp; omega
      · exact h2
  · intro s h0
    unfold goToPreviousAssignmentSection
    rw [if_neg (by omega)]
  · exact iterate_goToNext now ac (some m) phase (ac.sections.length - 1) le_rfl
  · simp [goToNextAssignmentSection, finishAssignment]

/-- Witness for C8 at the concrete two-section assignment. -/
theorem claim_C8_section_navigation_witness :
    sampleAssignmentContent.sections ≠ []
    ∧ NavSpec sampleAssignmentContent sampleModule "assignment" "t1" :=
  ⟨by decide,
   claim_C8_section_navigation sampleAssignmentContent sampleModule "assignment"
     "t1" (by decide)⟩

/-- Claim C9: with the credential absent, generateModuleContent and
generateTest abort with the configuration message, issue no service request
and no persistence write, and leave the local content untouched. -/
theorem claim_C9_missing_key_aborts :
    (∀ moduleId moduleName resourceStep assignmentStep teacherPicks0 assignmentContent0,
      (generateModuleContent none moduleId moduleName resourceStep assignmentStep
          teacherPicks0 assignmentContent0).requests = []
      ∧ (generateModuleContent none moduleId moduleName resourceStep assignmentStep
          teacherPicks0 assignmentContent0).writes = []
      ∧ (generateModuleContent none moduleId moduleName resourceStep assignmentStep
          teacherPicks0 assignmentContent0).errorMessage = geminiKeyMissingMsg
      ∧ (generateModuleContent none moduleId moduleName resourceStep assignmentStep
          teacherPicks0 assignmentContent0).teacherPicks = teacherPicks0
      ∧ (generateModuleContent none moduleId moduleName resourceStep assignmentStep
          teacherPicks0 assignmentContent0).assignmentContent = assignmentContent0)
    ∧ (∀ m kind step questions0,
      (generateTest none (some m) kind step questions0).requests = []
      ∧ (generateTest none (some m) kind step questions0).writes = []
      ∧ (generateTest none (some m) kind step questions0).errorMessage
          = geminiKeyMissingMsg) :=
  ⟨fun _ _ _ _ _ _ => ⟨rfl, rfl, rfl, rfl, rfl⟩, fun _ _ _ _ => ⟨rfl, rfl, rfl⟩⟩

/-- Claim C2, evaluated at its failing input: with the credential present and
a malformed assignment response, the run ends with assignmentContent null
and no assignment write, because the assignment fetch references the
undefined identifier payload and the thrown ReferenceError skips the
fallback substitution entirely. -/
theorem claim_C2_fallback_never_reached :
    c2Trace.assignmentContent = none
    ∧ c2Trace.writes = [.mergeTeacherPicks "module-1" [samplePick]]
    ∧ c2Trace.requests = [.resourceList]
    ∧ c2Trace.errorMessage = genContentFailMsg payloadRefErrorMsg :=
  ⟨rfl, rfl, rfl, rfl⟩

/-- Counterexample to C3: with both service responses available and well
formed, the assignment request is never issued, no assignment write occurs,
and the failure of the assignment step resets the local teacher picks that
the resource request had successfully produced. -/
theorem claim_C3_counterexample :
    c3Trace.requests = [.resourceList]
    ∧ c3Trace.writes = [.mergeTeacherPicks "module-3" [samplePick]]
    ∧ c3Trace.assignmentContent = none
    ∧ c3Trace.teacherPicks = [] :=
  ⟨rfl, rfl, rfl, rfl⟩

/-- Amended C3: the teacher-picks result (parsed or fallback) is persisted
immediately by its own merge write, before any assignment work; but the
assignment step always throws on the undefined identifier payload, so the
assignment request is never issued, assignmentContent is never persisted,
and the local teacher picks are reset by the catch handler; a thrown
resource-request failure likewise prevents the assignment request. -/
theorem claim_C3_amended (key moduleId moduleName : String)
    (resourceStep : Except String (RespBody (List TeacherPick)))
    (assignmentStep : Except String (RespBody AssignmentContent))
    (teacherPicks0 : List TeacherPick) (assignmentContent0 : Option AssignmentContent) :
    (∀ body, resourceStep = .ok body →
      (generateModuleContent (some key) moduleId moduleName resourceStep assignmentStep
          teacherPicks0 assignmentContent0).requests = [.resourceList]
      ∧ (generateModuleContent (some key) moduleId moduleName resourceStep assignmentStep
          teacherPicks0 assignmentContent0).writes
          = [.mergeTeacherPicks moduleId (parseResourcesStep body)]
      ∧ (generateModuleContent (some key) moduleId moduleName resourceStep assignmentStep
          teacherPicks0 assignmentContent0).assignmentContent = none
      ∧ (generateModuleContent (some key) moduleId moduleName resourceStep assignmentStep
          teacherPicks0 assignmentContent0).teacherPicks = [])
    ∧ (∀ e, resourceStep = .error e →
      (generateModuleContent (some key) moduleId moduleName resourceStep assignmentStep
          teacherPicks0 assignmentContent0).requests = [.resourceList]
      ∧ (generateModuleContent (some key) moduleId moduleName resourceStep assignmentStep
          teacherPicks0 assignmentContent0).writes = []
      ∧ (generateModuleContent (some key) moduleId moduleName resourceStep assignmentStep
          teacherPicks0 assignmentContent0).assignmentContent = none) := by
  constructor
  · intro body hb
    subst hb
    exact ⟨rfl, rfl, rfl, rfl⟩
  · intro e he
    subst he
    exact ⟨rfl, rfl, rfl⟩

/-- Witness for the amended C3, discharging the successful-resource
hypothesis at a concrete response. -/
theorem claim_C3_amended_witness :
    (generateModuleContent (some "test-key") "module-3" "Linear Algebra"
        (.ok (.parsed [samplePick])) (.ok (.parsed sampleAssignmentContent))
        [] none).requests = [.resourceList]
    ∧ (generateModuleContent (some "test-key") "module-3" "Linear Algebra"
        (.ok (.parsed [samplePick])) (.ok (.parsed sampleAssignmentContent))
        [] none).writes
        = [.mergeTeacherPicks "module-3" (parseResourcesStep (.parsed [samplePick]))]
    ∧ (generateModuleContent (some "test-key") "module-3" "Linear Algebra"
        (.ok (.parsed [samplePick])) (.ok (.parsed sampleAssignmentContent))
        [] none).assignmentContent = none
    ∧ (generateModuleContent (some "test-key") "module-3" "Linear Algebra"
        (.ok (.parsed [samplePick])) (.ok (.parsed sampleAssignmentContent))
        [] none).teacherPicks = [] :=
  (claim_C3_amended "test-key" "module-3" "Linear Algebra"
    (.ok (.parsed [samplePick])) (.ok (.parsed sampleAssignmentContent))
    [] none).1 (.parsed [samplePick]) rfl

/-- Counterexample to C4: after the ordinary run create, complete the
assignment, pass the final test, the module is completed; invoking the
next-section handler once more moves its status back to assignment_done,
which is not a transition of the section 4.1 machine. -/
theorem claim_C4_counterexample :
    c4m1.status = "assignment_done"
    ∧ c4m2.status = "completed"
    ∧ c4m3.status = "assignment_done"
    ∧ ¬ allowedStatusTransition c4m2.status c4m3.status := by
  have hscore : computeScore sampleQuestions sampleAllCorrect = 100 := by
    norm_num [computeScore, countCorrect, countCorrectAux, sampleQuestions, sampleAllCorrect]
  have hm2 : c4m2
      = submitFinalUpdate c4m1 (computeScore sampleQuestions sampleAllCorrect) "t2" := rfl
  have h2 : c4m2.status = "completed" := by
    rw [hm2]
    simp only [submitFinalUpdate]
    rw [hscore]
    norm_num
  have h3 : c4m3.status = "assignment_done" := rfl
  refine ⟨rfl, h2, h3, ?_⟩
  rw [h2, h3]
  decide

/-- Amended C4: each public operation has a fixed status effect, addResource
having none at all (it throws on entry); the effects are unconditional in
the prior status, and the section 4.1 transitions hold exactly when each
operation is invoked from the statuses the machine intends. -/
theorem claim_C4_amended : StatusEffects := by
  refine ⟨fun _ => rfl, ?_, fun _ _ => rfl, fun _ _ _ => rfl, fun _ _ _ => rfl,
    fun _ _ => rfl, fun _ _ => rfl, ?_, ?_, ?_⟩
  · intro now s
    cases hac : s.assignmentContent with
    | none =>
      cases hm : s.currentModule with
      | none => left; simp [goToNextAssignmentSection, finishAssignment, hac, hm]
      | some m =>
        right; exact ⟨m, rfl, by simp [goToNextAssignmentSection, finishAssignment, hac, hm]⟩
    | some ac =>
      by_cases hc : s.currentAssignmentSectionIndex < ac.sections.length - 1
      · left; simp [goToNextAssignmentSection, hac, hc]
      · cases hm : s.currentModule with
        | none => left; simp [goToNextAssignmentSection, finishAssignment, hac, hc, hm]
        | some m =>
          right
          exact ⟨m, rfl, by simp [goToNextAssignmentSection, finishAssignment, hac, hc, hm]⟩
  · intro m now hpre
    rcases hpre with h | h <;>
      simp [allowedStatusTransition, completeAssignmentUpdate, h]
  · intro m score now hpre
    by_cases h : score ≥ 80 <;>
      simp [allowedStatusTransition, submitFinalUpdate, hpre, h]
  · intro m now hpre
    simp [allowedStatusTransition, resetModuleForRetry, hpre]

/-- Witness for the amended C4, discharging the guarded-transition
hypothesis at the fresh sample module. -/
theorem claim_C4_amended_witness :
    (sampleModule.status = "started" ∨ sampleModule.status = "resources_added")
    ∧ allowedStatusTransition sampleModule.status
        (completeAssignmentUpdate sampleModule "t1").status := by
  obtain ⟨-, -, -, -, -, -, -, h8, -, -⟩ := claim_C4_amended
  exact ⟨Or.inl rfl, h8 sampleModule "t1" (Or.inl rfl)⟩

end QuantumLeap
